import Mathlib

/-!
Verification development for the toytcp per-connection socket core
(`src/socket.rs`).  The Rust code is shallowly embedded: machine integers
(`u8`, `u16`, `u32`) become `Nat` with explicit `% 2 ^ w` where wraparound
matters, `Vec`/`VecDeque` become `List`, `Result` becomes a returned
`Except` component, and the ambient capabilities (`TransportSender`,
`SystemTime::now()`) become explicit parameters of the operations that
use them.
-/

/-- Modelled from the spec: the TCP control-flag constants (`tcpflags`
module, not under `src/`).  Standard one-byte TCP flag bit values. -/
def tcpflags.FIN : Nat := 1

/-- Modelled from the spec: SYN flag bit. -/
def tcpflags.SYN : Nat := 2

/-- Modelled from the spec: RST flag bit. -/
def tcpflags.RST : Nat := 4

/-- Modelled from the spec: ACK flag bit. -/
def tcpflags.ACK : Nat := 16

/-- Modelled from the spec: the opaque segment value produced by the packet
codec capability (`packet.rs`, not under `src/`): "consumed as an opaque
packet value with getter/setter semantics".  One field per TCP header field
that `socket.rs` sets, plus the payload bytes. -/
structure TCPPacket where
  src : Nat
  dest : Nat
  seq : Nat
  ack : Nat
  data_offset : Nat
  flag : Nat
  window_size : Nat
  checksum : Nat
  payload : List Nat
deriving DecidableEq, Repr

/-- Modelled from the spec: `TCPPacket::new(payload_len)` allocates a
zeroed segment with room for `payload_len` payload bytes. -/
def TCPPacket.new (payload_len : Nat) : TCPPacket :=
  { src := 0, dest := 0, seq := 0, ack := 0, data_offset := 0, flag := 0,
    window_size := 0, checksum := 0, payload := List.replicate payload_len 0 }

/-- Modelled from the spec: setter of the source-port field. -/
def TCPPacket.set_src (p : TCPPacket) (v : Nat) : TCPPacket := { p with src := v % 2 ^ 16 }

/-- Modelled from the spec: setter of the destination-port field. -/
def TCPPacket.set_dest (p : TCPPacket) (v : Nat) : TCPPacket := { p with dest := v % 2 ^ 16 }

/-- Modelled from the spec: setter of the sequence-number field. -/
def TCPPacket.set_seq (p : TCPPacket) (v : Nat) : TCPPacket := { p with seq := v % 2 ^ 32 }

/-- Modelled from the spec: setter of the acknowledgment-number field. -/
def TCPPacket.set_ack (p : TCPPacket) (v : Nat) : TCPPacket := { p with ack := v % 2 ^ 32 }

/-- Modelled from the spec: setter of the data-offset field. -/
def TCPPacket.set_data_offset (p : TCPPacket) (v : Nat) : TCPPacket :=
  { p with data_offset := v % 2 ^ 4 }

/-- Modelled from the spec: setter of the flag byte. -/
def TCPPacket.set_flag (p : TCPPacket) (v : Nat) : TCPPacket := { p with flag := v % 2 ^ 8 }

/-- Modelled from the spec: setter of the window-size field. -/
def TCPPacket.set_window_size (p : TCPPacket) (v : Nat) : TCPPacket :=
  { p with window_size := v % 2 ^ 16 }

/-- Modelled from the spec: setter of the checksum field. -/
def TCPPacket.set_checksum (p : TCPPacket) (v : Nat) : TCPPacket :=
  { p with checksum := v % 2 ^ 16 }

/-- Modelled from the spec: setter of the payload bytes. -/
def TCPPacket.set_payload (p : TCPPacket) (v : List Nat) : TCPPacket := { p with payload := v }

/-- Modelled from the spec: getter of the flag byte. -/
def TCPPacket.get_flag (p : TCPPacket) : Nat := p.flag

/-- Pairs a byte list into big-endian 16-bit words, zero-padding an odd
tail, as the internet-checksum primitive does. -/
def wordsOfBytes : List Nat → List Nat
  | [] => []
  | [b] => [b % 2 ^ 8 * 2 ^ 8]
  | b1 :: b2 :: rest => (b1 % 2 ^ 8 * 2 ^ 8 + b2 % 2 ^ 8) :: wordsOfBytes rest

/-- Folds the carries of a ones-complement 16-bit sum until the value fits
in 16 bits. -/
def foldCarry (n : Nat) : Nat :=
  if h : n < 2 ^ 16 then n else foldCarry (n % 2 ^ 16 + n / 2 ^ 16)
termination_by n
decreasing_by
  have h2 : 1 ≤ n / 2 ^ 16 := (Nat.le_div_iff_mul_le (by norm_num)).2 (by omega)
  omega

/-- Modelled from the spec: `pseudo_header_checksum(segment, src_ip, dst_ip)`
(pnet `util::ipv4_checksum` with the checksum word skipped, as called in
`send_tcp_packet`): the ones-complement internet checksum over the IPv4
pseudo-header (source address, destination address, protocol TCP = 6, TCP
length) followed by the 20-byte option-free TCP header — with the checksum
word read as zero — and the payload bytes. -/
def checksumOf (p : TCPPacket) (src_ip dst_ip : Nat) : Nat :=
  let header_words : List Nat :=
    [p.src % 2 ^ 16, p.dest % 2 ^ 16,
     p.seq / 2 ^ 16 % 2 ^ 16, p.seq % 2 ^ 16,
     p.ack / 2 ^ 16 % 2 ^ 16, p.ack % 2 ^ 16,
     p.data_offset % 2 ^ 4 * 2 ^ 12 + p.flag % 2 ^ 8,
     p.window_size % 2 ^ 16,
     0, 0]
  let pseudo_words : List Nat :=
    [src_ip / 2 ^ 16 % 2 ^ 16, src_ip % 2 ^ 16,
     dst_ip / 2 ^ 16 % 2 ^ 16, dst_ip % 2 ^ 16,
     6, 20 + p.payload.length]
  2 ^ 16 - 1 - foldCarry ((pseudo_words ++ header_words ++ wordsOfBytes p.payload).foldl (· + ·) 0)

/-- Modelled from the spec: the raw transport capability's failure,
`TransmitError` ("raw send failed"). -/
inductive TransmitError where
  | transmitFailed : TransmitError
deriving DecidableEq, Repr

/-- Fixed socket-buffer size constant (`SOCKET_BUFFER_SIZE` in
`socket.rs`). -/
def SOCKET_BUFFER_SIZE : Nat := 4380

/-- Connection identity: the 4-tuple `(local_addr, remote_addr, local_port,
remote_port)` (tuple struct `SockID` in `socket.rs`, with derived
equality and hashing).  IPv4 addresses are embedded as `Nat`. -/
structure SockID where
  local_addr : Nat
  remote_addr : Nat
  local_port : Nat
  remote_port : Nat
deriving DecidableEq, Repr, Hashable

/-- Send-direction sequence tracker (`SendParam` in `socket.rs`). -/
structure SendParam where
  unacked_seq : Nat
  next : Nat
  window : Nat
  initial_seq : Nat
deriving DecidableEq, Repr

/-- The pending-range pair type (`type P = (u32, u32)` in `socket.rs`). -/
def P : Type := Nat × Nat
deriving DecidableEq, Repr

/-- Receive-direction sequence tracker (`RecvParam` in `socket.rs`).  The
field `tails : BinaryHeap<Reverse<P>>` — a min-heap over `(start, end)`
pairs — is embedded as the list of its members; retrieval order is given by
`tailsPeek` below, following the documented min-first semantics of
`BinaryHeap` over `Reverse`-wrapped keys. -/
structure RecvParam where
  next : Nat
  window : Nat
  initial_seq : Nat
  tails : List P
deriving DecidableEq, Repr

/-- The nine-state TCP status machine (`TcpStatus` in `socket.rs`). -/
inductive TcpStatus where
  | Listen
  | SynSent
  | SynRcvd
  | Established
  | FinWait1
  | FinWait2
  | TimeWait
  | CloseWait
  | LastAck
deriving DecidableEq, Repr

/-- Retransmission-queue entry (`RetransmissionQueueEntry` in `socket.rs`);
`SystemTime` is embedded as a `Nat` timestamp. -/
structure RetransmissionQueueEntry where
  packet : TCPPacket
  latest_transmission_time : Nat
  transmission_count : Nat
deriving DecidableEq, Repr

/-- `RetransmissionQueueEntry::new(packet)`: a fresh entry with the current
time (`SystemTime::now()`, passed here as the explicit `now`) and
`transmission_count = 1`. -/
def RetransmissionQueueEntry.new (packet : TCPPacket) (now : Nat) : RetransmissionQueueEntry :=
  { packet := packet, latest_transmission_time := now, transmission_count := 1 }

/-- The per-connection socket state (`Socket` in `socket.rs`).  The
`sender : TransportSender` capability is not state; it is embedded as the
`raw_send` parameter of `Socket.send_tcp_packet`. -/
structure Socket where
  local_addr : Nat
  remote_addr : Nat
  local_port : Nat
  remote_port : Nat
  send_param : SendParam
  recv_param : RecvParam
  status : TcpStatus
  connected_connection_queue : List SockID
  listening_socket : Option SockID
  recv_buffer : List Nat
  retransmission_queue : List RetransmissionQueueEntry
deriving DecidableEq, Repr

/-- `Socket::new` (`socket.rs` lines 81–117), minus the creation of the
transport channel (an external capability, fallible only externally):
zeroed sequence trackers with both windows at `SOCKET_BUFFER_SIZE` (cast to
`u16`), empty queues, and a zero-filled receive buffer of
`SOCKET_BUFFER_SIZE` bytes. -/
def Socket.new (local_addr remote_addr local_port remote_port : Nat)
    (status : TcpStatus) : Socket :=
  { local_addr := local_addr
    remote_addr := remote_addr
    local_port := local_port
    remote_port := remote_port
    send_param :=
      { unacked_seq := 0, next := 0, window := SOCKET_BUFFER_SIZE % 2 ^ 16, initial_seq := 0 }
    recv_param :=
      { next := 0, window := SOCKET_BUFFER_SIZE % 2 ^ 16, initial_seq := 0, tails := [] }
    status := status
    connected_connection_queue := []
    listening_socket := none
    recv_buffer := List.replicate SOCKET_BUFFER_SIZE 0
    retransmission_queue := [] }

/-- The segment construction inside `Socket::send_tcp_packet` (`socket.rs`
lines 126–143): a fresh packet carrying the socket's ports, the given
`seq`/`ack`/`flag`/`payload`, data offset 5 (no options), the receive
window, and the pseudo-header checksum. -/
def Socket.build_packet (s : Socket) (seq ack flag : Nat) (payload : List Nat) : TCPPacket :=
  let p := TCPPacket.new payload.length
  let p := p.set_src s.local_port
  let p := p.set_dest s.remote_port
  let p := p.set_seq seq
  let p := p.set_ack ack
  let p := p.set_data_offset 5
  let p := p.set_flag flag
  let p := p.set_window_size s.recv_param.window
  let p := p.set_payload payload
  p.set_checksum (checksumOf p s.local_addr s.remote_addr)

/-- `Socket::send_tcp_packet` (`socket.rs` lines 119–157).  `raw_send` is
the `sender.send_to(packet, remote_addr)` capability; `now` is
`SystemTime::now()` at enqueue time.  Returns the socket state after the
call (`&mut self`) together with the `Result<usize>`: the error of the raw
send is propagated (`?`), and otherwise the packet is appended to the
retransmission queue unless it is an empty-payload segment whose flag byte
is exactly `ACK`. -/
def Socket.send_tcp_packet (s : Socket)
    (raw_send : TCPPacket → Nat → Except TransmitError Nat) (now : Nat)
    (seq ack flag : Nat) (payload : List Nat) :
    Socket × Except TransmitError Nat :=
  let tcp_packet := s.build_packet seq ack flag payload
  match raw_send tcp_packet s.remote_addr with
  | Except.error e => (s, Except.error e)
  | Except.ok sent_size =>
    if payload = [] ∧ tcp_packet.get_flag = tcpflags.ACK then
      (s, Except.ok sent_size)
    else
      ({ s with retransmission_queue :=
          s.retransmission_queue ++ [RetransmissionQueueEntry.new tcp_packet now] },
       Except.ok sent_size)

/-- `Socket::get_sock_id` (`socket.rs` lines 159–166). -/
def Socket.get_sock_id (s : Socket) : SockID :=
  { local_addr := s.local_addr
    remote_addr := s.remote_addr
    local_port := s.local_port
    remote_port := s.remote_port }

/-- Wraparound-aware sequence-space ordering from the spec's design note:
`a` is at or before `b` when the unsigned 32-bit difference `b - a`,
interpreted as a signed quantity, is non-negative. -/
def seqLe (a b : Nat) : Prop :=
  (b % 2 ^ 32 + 2 ^ 32 - a % 2 ^ 32) % 2 ^ 32 < 2 ^ 31

instance (a b : Nat) : Decidable (seqLe a b) := by
  unfold seqLe; infer_instance

/-- Lexicographic order on `(start, end)` pairs: the derived `Ord` on Rust
tuples, which keys the `BinaryHeap<Reverse<P>>`. -/
def pairLe (a b : P) : Prop :=
  a.1 < b.1 ∨ (a.1 = b.1 ∧ a.2 ≤ b.2)

instance (a b : P) : Decidable (pairLe a b) := by
  unfold pairLe; infer_instance

/-- The smaller of two pairs under `pairLe`. -/
def pickMin (a b : P) : P := if pairLe a b then a else b

/-- The element a `BinaryHeap<Reverse<P>>` holding exactly the members of
the list yields first: the minimum of the list under `pairLe`, matching the
documented pop order of a `Reverse`-keyed max-heap. -/
def tailsPeek : List P → Option P
  | [] => none
  | x :: xs => some (xs.foldl pickMin x)

/-- Iterated sends: apply `send_tcp_packet` for each `(seq, ack, flag,
payload)` tuple in turn, threading the socket state exactly as the Rust
caller threads `&mut self` (an errored send leaves the state unchanged). -/
def send_sequence (raw_send : TCPPacket → Nat → Except TransmitError Nat) (now : Nat) :
    List (Nat × Nat × Nat × List Nat) → Socket → Socket
  | [], s => s
  | (seq, ack, flag, payload) :: rest, s =>
      send_sequence raw_send now rest (s.send_tcp_packet raw_send now seq ack flag payload).1

/-- The byte-buffer (`Vec<u8>`) fields of the `Socket` struct, in
declaration order: the source struct holds exactly one, `recv_buffer`. -/
def Socket.buffers (s : Socket) : List (List Nat) := [s.recv_buffer]

lemma pairLe_refl (a : P) : pairLe a a := Or.inr ⟨rfl, le_refl _⟩

lemma pairLe_trans {a b c : P} (h1 : pairLe a b) (h2 : pairLe b c) : pairLe a c := by
  unfold pairLe at *
  rcases h1 with h1 | ⟨h1, h1'⟩ <;> rcases h2 with h2 | ⟨h2, h2'⟩ <;> omega

lemma pairLe_total (a b : P) : pairLe a b ∨ pairLe b a := by
  unfold pairLe
  omega

lemma pickMin_le_left (a b : P) : pairLe (pickMin a b) a := by
  unfold pickMin
  split
  · exact pairLe_refl a
  · rcases pairLe_total a b with h | h
    · contradiction
    · exact h

lemma pickMin_le_right (a b : P) : pairLe (pickMin a b) b := by
  unfold pickMin
  split
  · assumption
  · exact pairLe_refl b

lemma pickMin_mem (a b : P) : pickMin a b = a ∨ pickMin a b = b := by
  unfold pickMin
  split
  · exact Or.inl rfl
  · exact Or.inr rfl

lemma foldl_pickMin_spec (xs : List P) (a : P) :
    (xs.foldl pickMin a = a ∨ xs.foldl pickMin a ∈ xs) ∧
      pairLe (xs.foldl pickMin a) a ∧ ∀ x ∈ xs, pairLe (xs.foldl pickMin a) x := by
  induction xs generalizing a with
  | nil => exact ⟨Or.inl rfl, pairLe_refl a, by simp⟩
  | cons y ys ih =>
    obtain ⟨hmem, hle, hall⟩ := ih (pickMin a y)
    rw [List.foldl_cons]
    refine ⟨?_, ?_, ?_⟩
    · rcases hmem with hmem | hmem
      · rw [hmem]
        rcases pickMin_mem a y with hc | hc
        · exact Or.inl hc
        · exact Or.inr (by rw [hc]; exact List.mem_cons_self y ys)
      · exact Or.inr (List.mem_cons_of_mem y hmem)
    · exact pairLe_trans hle (pickMin_le_left a y)
    · intro x hx
      rcases List.mem_cons.1 hx with hx | hx
      · subst hx
        exact pairLe_trans hle (pickMin_le_right a x)
      · exact hall x hx

lemma checksumOf_set_checksum (p : TCPPacket) (v a b : Nat) :
    checksumOf (p.set_checksum v) a b = checksumOf p a b := rfl

lemma checksumOf_lt (p : TCPPacket) (a b : Nat) : checksumOf p a b < 2 ^ 16 := by
  simp only [checksumOf]
  omega

lemma send_tcp_packet_error
    {raw_send : TCPPacket → Nat → Except TransmitError Nat} {now : Nat} {s : Socket}
    {seq ack flag : Nat} {payload : List Nat} {e : TransmitError}
    (hr : raw_send (s.build_packet seq ack flag payload) s.remote_addr = Except.error e) :
    s.send_tcp_packet raw_send now seq ack flag payload = (s, Except.error e) := by
  simp only [Socket.send_tcp_packet, hr]

lemma send_tcp_packet_ok_pure_ack
    {raw_send : TCPPacket → Nat → Except TransmitError Nat} {now : Nat} {s : Socket}
    {seq ack flag : Nat} {payload : List Nat} {m : Nat}
    (hr : raw_send (s.build_packet seq ack flag payload) s.remote_addr = Except.ok m)
    (hc : payload = [] ∧ (s.build_packet seq ack flag payload).get_flag = tcpflags.ACK) :
    s.send_tcp_packet raw_send now seq ack flag payload = (s, Except.ok m) := by
  simp only [Socket.send_tcp_packet, hr]
  rw [if_pos hc]

lemma send_tcp_packet_ok_enqueue
    {raw_send : TCPPacket → Nat → Except TransmitError Nat} {now : Nat} {s : Socket}
    {seq ack flag : Nat} {payload : List Nat} {m : Nat}
    (hr : raw_send (s.build_packet seq ack flag payload) s.remote_addr = Except.ok m)
    (hc : ¬(payload = [] ∧ (s.build_packet seq ack flag payload).get_flag = tcpflags.ACK)) :
    s.send_tcp_packet raw_send now seq ack flag payload
      = ({ s with retransmission_queue := s.retransmission_queue
              ++ [RetransmissionQueueEntry.new (s.build_packet seq ack flag payload) now] },
         Except.ok m) := by
  simp only [Socket.send_tcp_packet, hr]
  rw [if_neg hc]

lemma send_tcp_packet_queue_extends
    (raw_send : TCPPacket → Nat → Except TransmitError Nat) (now : Nat) (s : Socket)
    (seq ack flag : Nat) (payload : List Nat) :
    ∃ t, (s.send_tcp_packet raw_send now seq ack flag payload).1.retransmission_queue
      = s.retransmission_queue ++ t := by
  cases hr : raw_send (s.build_packet seq ack flag payload) s.remote_addr with
  | error e =>
    exact ⟨[], by simp [send_tcp_packet_error hr]⟩
  | ok m =>
    by_cases hc : payload = [] ∧ (s.build_packet seq ack flag payload).get_flag = tcpflags.ACK
    · exact ⟨[], by simp [send_tcp_packet_ok_pure_ack hr hc]⟩
    · exact ⟨[RetransmissionQueueEntry.new (s.build_packet seq ack flag payload) now],
        by simp [send_tcp_packet_ok_enqueue hr hc]⟩

lemma send_sequence_queue_extends
    (raw_send : TCPPacket → Nat → Except TransmitError Nat) (now : Nat)
    (ops : List (Nat × Nat × Nat × List Nat)) (s : Socket) :
    ∃ t, (send_sequence raw_send now ops s).retransmission_queue
      = s.retransmission_queue ++ t := by
  induction ops generalizing s with
  | nil => exact ⟨[], by simp [send_sequence]⟩
  | cons op rest ih =>
    obtain ⟨seq, ack, flag, payload⟩ := op
    obtain ⟨t1, h1⟩ := send_tcp_packet_queue_extends raw_send now s seq ack flag payload
    obtain ⟨t2, h2⟩ := ih (s.send_tcp_packet raw_send now seq ack flag payload).1
    exact ⟨t1 ++ t2, by rw [send_sequence, h2, h1, List.append_assoc]⟩

lemma send_tcp_packet_send_param
    (raw_send : TCPPacket → Nat → Except TransmitError Nat) (now : Nat) (s : Socket)
    (seq ack flag : Nat) (payload : List Nat) :
    (s.send_tcp_packet raw_send now seq ack flag payload).1.send_param = s.send_param := by
  cases hr : raw_send (s.build_packet seq ack flag payload) s.remote_addr with
  | error e => rw [send_tcp_packet_error hr]
  | ok m =>
    by_cases hc : payload = [] ∧ (s.build_packet seq ack flag payload).get_flag = tcpflags.ACK
    · rw [send_tcp_packet_ok_pure_ack hr hc]
    · rw [send_tcp_packet_ok_enqueue hr hc]

/-- C1: for every successful `send_tcp_packet`, if the payload is empty and
the segment's flag byte is exactly `ACK`, the retransmission queue is left
unchanged; otherwise exactly one entry is appended to it, and that entry
carries `transmission_count = 1` and the fresh enqueue-time `now` as its
`latest_transmission_time`. -/
theorem c1_retransmission_queue_enqueue
    (raw_send : TCPPacket → Nat → Except TransmitError Nat) (now : Nat) (s : Socket)
    (seq ack flag : Nat) (payload : List Nat) (n : Nat)
    (h : (s.send_tcp_packet raw_send now seq ack flag payload).2 = Except.ok n) :
    (payload = [] ∧ (s.build_packet seq ack flag payload).get_flag = tcpflags.ACK →
      (s.send_tcp_packet raw_send now seq ack flag payload).1.retransmission_queue
        = s.retransmission_queue) ∧
    (¬(payload = [] ∧ (s.build_packet seq ack flag payload).get_flag = tcpflags.ACK) →
      (s.send_tcp_packet raw_send now seq ack flag payload).1.retransmission_queue
        = s.retransmission_queue
            ++ [RetransmissionQueueEntry.new (s.build_packet seq ack flag payload) now]) ∧
    (RetransmissionQueueEntry.new (s.build_packet seq ack flag payload) now).transmission_count
      = 1 ∧
    (RetransmissionQueueEntry.new
        (s.build_packet seq ack flag payload) now).latest_transmission_time = now := by
  refine ⟨?_, ?_, rfl, rfl⟩
  · intro hc
    cases hr : raw_send (s.build_packet seq ack flag payload) s.remote_addr with
    | error e => rw [send_tcp_packet_error hr] at h; exact absurd h (by simp)
    | ok m => rw [send_tcp_packet_ok_pure_ack hr hc]
  · intro hc
    cases hr : raw_send (s.build_packet seq ack flag payload) s.remote_addr with
    | error e => rw [send_tcp_packet_error hr] at h; exact absurd h (by simp)
    | ok m => rw [send_tcp_packet_ok_enqueue hr hc]

/-- C1 witness: sending a SYN segment with payload `[5]` succeeds and
appends exactly the fresh entry to the previously empty retransmission
queue. -/
theorem c1_retransmission_queue_enqueue_witness :
    ((Socket.new 0 1 2 3 TcpStatus.Established).send_tcp_packet
        (fun _ _ => Except.ok 41) 7 0 0 tcpflags.SYN [5]).2 = Except.ok 41 ∧
    ¬(([5] : List Nat) = [] ∧
        ((Socket.new 0 1 2 3 TcpStatus.Established).build_packet 0 0 tcpflags.SYN [5]).get_flag
          = tcpflags.ACK) ∧
    ((Socket.new 0 1 2 3 TcpStatus.Established).send_tcp_packet
        (fun _ _ => Except.ok 41) 7 0 0 tcpflags.SYN [5]).1.retransmission_queue
      = (Socket.new 0 1 2 3 TcpStatus.Established).retransmission_queue
          ++ [RetransmissionQueueEntry.new
                ((Socket.new 0 1 2 3 TcpStatus.Established).build_packet 0 0 tcpflags.SYN [5])
                7] :=
  ⟨rfl, fun hc => absurd hc.1 (by decide),
    (c1_retransmission_queue_enqueue (fun _ _ => Except.ok 41) 7
        (Socket.new 0 1 2 3 TcpStatus.Established) 0 0 tcpflags.SYN [5] 41 rfl).2.1
      (fun hc => absurd hc.1 (by decide))⟩

/-- C2: `send_tcp_packet` returns on success exactly the byte count the
raw-send capability reported for the built segment, and if the raw send
fails it returns that error rather than a byte count. -/
theorem c2_send_returns_raw_byte_count
    (raw_send : TCPPacket → Nat → Except TransmitError Nat) (now : Nat) (s : Socket)
    (seq ack flag : Nat) (payload : List Nat) :
    (∀ n, raw_send (s.build_packet seq ack flag payload) s.remote_addr = Except.ok n →
      (s.send_tcp_packet raw_send now seq ack flag payload).2 = Except.ok n) ∧
    (∀ e, raw_send (s.build_packet seq ack flag payload) s.remote_addr = Except.error e →
      (s.send_tcp_packet raw_send now seq ack flag payload).2 = Except.error e) := by
  constructor
  · intro n hr
    by_cases hc : payload = [] ∧ (s.build_packet seq ack flag payload).get_flag = tcpflags.ACK
    · rw [send_tcp_packet_ok_pure_ack hr hc]
    · rw [send_tcp_packet_ok_enqueue hr hc]
  · intro e hr
    rw [send_tcp_packet_error hr]

/-- C2 witness: a raw send reporting 99 bytes yields `Ok 99`, and a failing
raw send yields the transmit error. -/
theorem c2_send_returns_raw_byte_count_witness :
    ((Socket.new 0 1 2 3 TcpStatus.Established).send_tcp_packet
        (fun _ _ => Except.ok 99) 0 0 0 tcpflags.SYN []).2 = Except.ok 99 ∧
    ((Socket.new 0 1 2 3 TcpStatus.Established).send_tcp_packet
        (fun _ _ => Except.error TransmitError.transmitFailed) 0 0 0 tcpflags.SYN []).2
      = Except.error TransmitError.transmitFailed :=
  ⟨(c2_send_returns_raw_byte_count (fun _ _ => Except.ok 99) 0
      (Socket.new 0 1 2 3 TcpStatus.Established) 0 0 tcpflags.SYN []).1 99 rfl,
   (c2_send_returns_raw_byte_count (fun _ _ => Except.error TransmitError.transmitFailed) 0
      (Socket.new 0 1 2 3 TcpStatus.Established) 0 0 tcpflags.SYN []).2
     TransmitError.transmitFailed rfl⟩

/-- C3: when `send_tcp_packet` returns a transmit error, the socket state is
returned unchanged: in particular the status and the retransmission queue
are exactly as before the call (the enqueue happens only after a successful
send). -/
theorem c3_send_error_is_atomic
    (raw_send : TCPPacket → Nat → Except TransmitError Nat) (now : Nat) (s : Socket)
    (seq ack flag : Nat) (payload : List Nat) (e : TransmitError)
    (h : (s.send_tcp_packet raw_send now seq ack flag payload).2 = Except.error e) :
    (s.send_tcp_packet raw_send now seq ack flag payload).1 = s ∧
    (s.send_tcp_packet raw_send now seq ack flag payload).1.status = s.status ∧
    (s.send_tcp_packet raw_send now seq ack flag payload).1.retransmission_queue
      = s.retransmission_queue := by
  cases hr : raw_send (s.build_packet seq ack flag payload) s.remote_addr with
  | error e2 => rw [send_tcp_packet_error hr]; exact ⟨rfl, rfl, rfl⟩
  | ok m =>
    by_cases hc : payload = [] ∧ (s.build_packet seq ack flag payload).get_flag = tcpflags.ACK
    · rw [send_tcp_packet_ok_pure_ack hr hc] at h; exact absurd h (by simp)
    · rw [send_tcp_packet_ok_enqueue hr hc] at h; exact absurd h (by simp)

/-- C3 witness: a failing raw send surfaces the transmit error and returns
the socket exactly as it was. -/
theorem c3_send_error_is_atomic_witness :
    ((Socket.new 0 1 2 3 TcpStatus.Established).send_tcp_packet
        (fun _ _ => Except.error TransmitError.transmitFailed) 0 0 0 tcpflags.SYN [9]).2
      = Except.error TransmitError.transmitFailed ∧
    ((Socket.new 0 1 2 3 TcpStatus.Established).send_tcp_packet
        (fun _ _ => Except.error TransmitError.transmitFailed) 0 0 0 tcpflags.SYN [9]).1
      = Socket.new 0 1 2 3 TcpStatus.Established :=
  ⟨rfl,
   (c3_send_error_is_atomic (fun _ _ => Except.error TransmitError.transmitFailed) 0
      (Socket.new 0 1 2 3 TcpStatus.Established) 0 0 tcpflags.SYN [9]
      TransmitError.transmitFailed rfl).1⟩

/-- C5: `Socket::new` creates the retransmission queue empty, and across any
sequence of `send_tcp_packet` calls the existing entries are preserved in
order (the old queue stays a prefix, entries only being appended after it)
and the queue length never decreases. -/
theorem c5_retransmission_queue_append_only :
    (∀ la ra lp rp st,
      (Socket.new la ra lp rp st).retransmission_queue
        = ([] : List RetransmissionQueueEntry)) ∧
    (∀ (raw_send : TCPPacket → Nat → Except TransmitError Nat) (now : Nat)
        (ops : List (Nat × Nat × Nat × List Nat)) (s : Socket),
      ∃ t, (send_sequence raw_send now ops s).retransmission_queue
        = s.retransmission_queue ++ t) ∧
    (∀ (raw_send : TCPPacket → Nat → Except TransmitError Nat) (now : Nat)
        (ops : List (Nat × Nat × Nat × List Nat)) (s : Socket),
      s.retransmission_queue.length
        ≤ (send_sequence raw_send now ops s).retransmission_queue.length) := by
  refine ⟨fun _ _ _ _ _ => rfl, send_sequence_queue_extends, ?_⟩
  intro raw_send now ops s
  obtain ⟨t, ht⟩ := send_sequence_queue_extends raw_send now ops s
  rw [ht]
  simp

/-- C6: `Socket::new` establishes the wraparound-aware invariant
`unacked_seq <= next` (both fields 0), and `send_tcp_packet` — the only
state-mutating core operation besides construction — leaves `SendParam`
untouched, hence preserves the invariant. -/
theorem c6_send_param_wraparound_invariant :
    (∀ la ra lp rp st,
      seqLe (Socket.new la ra lp rp st).send_param.unacked_seq
        (Socket.new la ra lp rp st).send_param.next) ∧
    (∀ (raw_send : TCPPacket → Nat → Except TransmitError Nat) (now : Nat) (s : Socket)
        (seq ack flag : Nat) (payload : List Nat),
      (s.send_tcp_packet raw_send now seq ack flag payload).1.send_param = s.send_param) ∧
    (∀ (raw_send : TCPPacket → Nat → Except TransmitError Nat) (now : Nat) (s : Socket)
        (seq ack flag : Nat) (payload : List Nat),
      (seqLe s.send_param.unacked_seq s.send_param.next ↔
        seqLe (s.send_tcp_packet raw_send now seq ack flag payload).1.send_param.unacked_seq
          (s.send_tcp_packet raw_send now seq ack flag payload).1.send_param.next)) := by
  refine ⟨?_, send_tcp_packet_send_param, ?_⟩
  · intro la ra lp rp st
    show seqLe 0 0
    decide
  · intro raw_send now s seq ack flag payload
    rw [send_tcp_packet_send_param]

/-- C4: for arguments within their Rust machine-integer ranges, the segment
built by `send_tcp_packet` carries the socket's local port as source, the
remote port as destination, the given `seq`, `ack`, `flag` and `payload`,
the current `RecvParam.window` as window field, and as checksum the
pseudo-header checksum (local address, remote address, protocol TCP) of the
segment contents. -/
theorem c4_built_segment_fields
    (s : Socket) (seq ack flag : Nat) (payload : List Nat)
    (hlp : s.local_port < 2 ^ 16) (hrp : s.remote_port < 2 ^ 16)
    (hseq : seq < 2 ^ 32) (hack : ack < 2 ^ 32) (hflag : flag < 2 ^ 8)
    (hwin : s.recv_param.window < 2 ^ 16) :
    (s.build_packet seq ack flag payload).src = s.local_port ∧
    (s.build_packet seq ack flag payload).dest = s.remote_port ∧
    (s.build_packet seq ack flag payload).seq = seq ∧
    (s.build_packet seq ack flag payload).ack = ack ∧
    (s.build_packet seq ack flag payload).flag = flag ∧
    (s.build_packet seq ack flag payload).window_size = s.recv_param.window ∧
    (s.build_packet seq ack flag payload).payload = payload ∧
    (s.build_packet seq ack flag payload).checksum
      = checksumOf (s.build_packet seq ack flag payload) s.local_addr s.remote_addr := by
  refine ⟨Nat.mod_eq_of_lt hlp, Nat.mod_eq_of_lt hrp, Nat.mod_eq_of_lt hseq,
    Nat.mod_eq_of_lt hack, Nat.mod_eq_of_lt hflag, Nat.mod_eq_of_lt hwin, rfl, ?_⟩
  simp only [Socket.build_packet, checksumOf_set_checksum, TCPPacket.set_checksum]
  exact Nat.mod_eq_of_lt (checksumOf_lt _ _ _)

/-- C4 witness: the segment built on a concrete socket for `seq = 5`,
`ack = 6`, `flag = ACK`, payload `[9]` carries the socket's local port as
its source port. -/
theorem c4_built_segment_fields_witness :
    (Socket.new 1 2 3 4 TcpStatus.Established).local_port < 2 ^ 16 ∧
    (Socket.new 1 2 3 4 TcpStatus.Established).remote_port < 2 ^ 16 ∧
    5 < 2 ^ 32 ∧ 6 < 2 ^ 32 ∧ tcpflags.ACK < 2 ^ 8 ∧
    (Socket.new 1 2 3 4 TcpStatus.Established).recv_param.window < 2 ^ 16 ∧
    ((Socket.new 1 2 3 4 TcpStatus.Established).build_packet 5 6 tcpflags.ACK [9]).src
      = (Socket.new 1 2 3 4 TcpStatus.Established).local_port :=
  ⟨by decide, by decide, by decide, by decide, by decide, by decide,
   (c4_built_segment_fields (Socket.new 1 2 3 4 TcpStatus.Established) 5 6 tcpflags.ACK [9]
      (by decide) (by decide) (by decide) (by decide) (by decide) (by decide)).1⟩

/-- C7: for every `RecvParam` with a non-empty pending set, the element the
min-ordered `tails` collection yields first is a member that is
lexicographically least among all pending `(start, end)` pairs. -/
theorem c7_tails_min_first (rp : RecvParam) (h : rp.tails ≠ []) :
    ∃ m, tailsPeek rp.tails = some m ∧ m ∈ rp.tails ∧ ∀ x ∈ rp.tails, pairLe m x := by
  cases htl : rp.tails with
  | nil => exact absurd htl h
  | cons x xs =>
    obtain ⟨hmem, hle, hall⟩ := foldl_pickMin_spec xs x
    refine ⟨xs.foldl pickMin x, rfl, ?_, ?_⟩
    · rcases hmem with hm | hm
      · rw [hm]; exact List.mem_cons_self x xs
      · exact List.mem_cons_of_mem x hm
    · intro y hy
      rcases List.mem_cons.1 hy with hy | hy
      · rw [hy]; exact hle
      · exact hall y hy

/-- Sample receive tracker with three pending out-of-order ranges, used to
exercise the min-first retrieval. -/
def sampleRecvParam : RecvParam :=
  { next := 0, window := 0, initial_seq := 0,
    tails := [((5, 6) : P), ((2, 9) : P), ((2, 3) : P)] }

/-- C7 witness: on the pending set `[(5, 6), (2, 9), (2, 3)]` the first
retrieved element is a lexicographically least member. -/
theorem c7_tails_min_first_witness :
    sampleRecvParam.tails ≠ [] ∧
    ∃ m, tailsPeek sampleRecvParam.tails = some m ∧ m ∈ sampleRecvParam.tails ∧
      ∀ x ∈ sampleRecvParam.tails, pairLe m x :=
  ⟨List.cons_ne_nil _ _, c7_tails_min_first sampleRecvParam (List.cons_ne_nil _ _)⟩

/-- C8 (amended): every Socket built by `Socket::new` holds exactly one
byte buffer, the receive buffer, of the fixed compile-time size
`SOCKET_BUFFER_SIZE = 4380`, and both the send-side and receive-side
advertised windows are initialized to 4380; there is no send-side byte
buffer in the Socket state. -/
theorem c8_fixed_buffer_and_windows (la ra lp rp : Nat) (st : TcpStatus) :
    Socket.buffers (Socket.new la ra lp rp st) = [List.replicate SOCKET_BUFFER_SIZE 0] ∧
    (Socket.new la ra lp rp st).recv_buffer.length = SOCKET_BUFFER_SIZE ∧
    SOCKET_BUFFER_SIZE = 4380 ∧
    (Socket.new la ra lp rp st).send_param.window = 4380 ∧
    (Socket.new la ra lp rp st).recv_param.window = 4380 ∧
    (Socket.buffers (Socket.new la ra lp rp st)).length = 1 := by
  refine ⟨rfl, ?_, rfl, rfl, rfl, rfl⟩
  show (List.replicate SOCKET_BUFFER_SIZE 0).length = SOCKET_BUFFER_SIZE
  simp

/-- C8 counterexample: the Socket state returned by `Socket::new` does not
hold two byte buffers — its only `Vec<u8>` buffer field is the receive
buffer — so the claim that it has both a send-side and a receive-side
buffer fails on any concrete socket. -/
theorem c8_fixed_buffer_and_windows_cex :
    (Socket.buffers (Socket.new 0 0 0 0 TcpStatus.Listen)).length ≠ 2 := by
  decide

/-- C9: `get_sock_id` returns exactly the `SockID` built from the socket's
current local address, remote address, local port and remote port, in that
order; `SockID` equality is componentwise on the 4-tuple and is decidable
(the derived comparability/hashability). -/
theorem c9_get_sock_id :
    (∀ s : Socket, s.get_sock_id
      = SockID.mk s.local_addr s.remote_addr s.local_port s.remote_port) ∧
    (∀ a b : SockID, a = b ↔
      (a.local_addr = b.local_addr ∧ a.remote_addr = b.remote_addr ∧
        a.local_port = b.local_port ∧ a.remote_port = b.remote_port)) ∧
    (∀ a b : SockID, a = b ∨ a ≠ b) := by
  refine ⟨fun s => rfl, ?_, ?_⟩
  · intro a b
    constructor
    · rintro rfl
      exact ⟨rfl, rfl, rfl, rfl⟩
    · rintro ⟨h1, h2, h3, h4⟩
      cases a
      cases b
      simp_all
  · intro a b
    exact if h : a = b then Or.inl h else Or.inr h

/-- C10: every segment built by `send_tcp_packet` has its data-offset field
set to the constant 5 (20-byte header, no TCP options), regardless of the
arguments supplied. -/
theorem c10_data_offset_constant (s : Socket) (seq ack flag : Nat) (payload : List Nat) :
    (s.build_packet seq ack flag payload).data_offset = 5 := rfl
